import Mathlib

/-!
Verification development for the Kali conversational assistant
(src/kali_conversational_assistant.py).  The Python source is embedded
shallowly: strings are Lean strings (lists of characters), the regular
expressions of the danger catalog are embedded via a small derivative
matcher, and the effectful collaborators (model backend, subprocess,
interactive prompt) are passed in as explicit values together with a
trace of which collaborators were invoked.
-/

set_option autoImplicit false

namespace KaliAssistant

/-! ## Python string primitives -/

/-- Python whitespace characters as used by str.strip and the regex class
backslash-s (ASCII part). -/
def isPyWS (c : Char) : Bool :=
  c = ' ' || c = '\t' || c = '\n' || c = '\x0d' || c = '\x0b' || c = '\x0c'

/-- Python str.strip with no argument: drop whitespace from both ends. -/
def pyStrip (l : List Char) : List Char :=
  ((l.dropWhile isPyWS).reverse.dropWhile isPyWS).reverse

def pyStripS (s : String) : String := ⟨pyStrip s.data⟩

/-- Python str.lower restricted to ASCII letters (the only letters the
program compares). -/
def pyLower (l : List Char) : List Char := l.map Char.toLower

/-- First index at which needle occurs as a contiguous substring of the
haystack, if any (the semantics of str.find / leftmost regex match of a
literal). -/
def findSub (needle : List Char) : List Char → Option Nat
  | [] => if needle.isPrefixOf ([] : List Char) then some 0 else none
  | c :: rest =>
    if needle.isPrefixOf (c :: rest) then some 0
    else (findSub needle rest).map (· + 1)

/-- Python substring containment (the `in` operator on str). -/
def containsSub (hay needle : List Char) : Bool := (findSub needle hay).isSome

/-! ## A small regular-expression engine (Brzozowski derivatives)

Only the constructs used by the danger catalog are supported: literal
characters (matched case-insensitively, mirroring re.IGNORECASE with an
all-lowercase pattern), the class backslash-s, the dot (any character
except newline, since re.DOTALL is not passed to these patterns),
concatenation and Kleene star. -/

inductive RE where
  | fail : RE
  | eps : RE
  | chr : Char → RE
  | ws : RE
  | dot : RE
  | alt : RE → RE → RE
  | seq : RE → RE → RE
  | star : RE → RE
deriving DecidableEq

def RE.nullable : RE → Bool
  | .fail => false
  | .eps => true
  | .chr _ => false
  | .ws => false
  | .dot => false
  | .alt a b => a.nullable || b.nullable
  | .seq a b => a.nullable && b.nullable
  | .star _ => true

def RE.deriv : RE → Char → RE
  | .fail, _ => .fail
  | .eps, _ => .fail
  | .chr c, d => if d.toLower = c then .eps else .fail
  | .ws, d => if isPyWS d then .eps else .fail
  | .dot, d => if d = '\n' then .fail else .eps
  | .alt a b, d => .alt (a.deriv d) (b.deriv d)
  | .seq a b, d =>
    if a.nullable then .alt (.seq (a.deriv d) b) (b.deriv d)
    else .seq (a.deriv d) b
  | .star a, d => .seq (a.deriv d) (.star a)

/-- Does some prefix of the string match the expression? -/
def matchPre : RE → List Char → Bool
  | r, [] => r.nullable
  | r, c :: cs => r.nullable || matchPre (r.deriv c) cs

/-- re.search: does the expression match somewhere inside the string? -/
def reSearch : RE → List Char → Bool
  | r, [] => r.nullable
  | r, c :: cs => matchPre r (c :: cs) || reSearch r cs

def reOfList : List Char → RE
  | [] => .eps
  | c :: cs => .seq (.chr c) (reOfList cs)

def reStr (s : String) : RE := reOfList s.data

/-- The regex fragment backslash-s-plus. -/
def wsPlus : RE := .seq .ws (.star .ws)

def reSeqs (l : List RE) : RE := l.foldr RE.seq RE.eps

/-! ## The danger-pattern catalog and the safety gate (_is_safe) -/

/-- The eight danger patterns of _is_safe, in source order. -/
def danger_patterns : List RE :=
  [ reSeqs [reStr "rm", wsPlus, reStr "-rf", wsPlus],
    reSeqs [reStr "dd", wsPlus, reStr "if="],
    reSeqs [reStr ">", .star .ws, reStr "/dev/sd"],
    reSeqs [reStr "chmod", wsPlus, reStr "777", wsPlus],
    reSeqs [reStr ":()\x7b", .star .dot, reStr ";\x7d;"],
    reSeqs [reStr "mv", wsPlus, reStr "/", .star .ws],
    reSeqs [reStr "fdisk", wsPlus, reStr "/dev/"],
    reSeqs [reStr "format", wsPlus] ]

/-- The for-loop over danger_patterns inside _is_safe: true when some
pattern is found in the command (case-insensitively). -/
def isDangerous (command : String) : Bool :=
  danger_patterns.any (fun p => reSearch p command.data)

/-- _is_safe.  The interactive prompt is a collaborator; its answer is the
askAnswer argument.  The second component of the result records whether
the prompt was shown. -/
def is_safe (require_confirmation : Bool) (askAnswer : String)
    (command : String) : Bool × Bool :=
  if isDangerous command then (false, false)
  else if require_confirmation then
    (pyLower (pyStrip askAnswer.data) == "y".data, true)
  else (true, false)

/-! ## Output truncation inside _execute_command -/

def truncMarker : String := "\n\n[OUTPUT TRUNCATED]"

/-- The output-limiting step of _execute_command: output[:max_output]
plus the marker when len(output) > max_output. -/
def truncateOutput (max_output : Nat) (output : String) : String :=
  if output.data.length > max_output then
    ⟨output.data.take max_output ++ truncMarker.data⟩
  else output

/-! ## Command extraction (_extract_command) -/

/-- The regex search of _extract_command for a fenced bash block:
leftmost occurrence of the opening fence followed by the nearest closing
fence (non-greedy group with DOTALL).  Returns the raw inner text. -/
def bashBlock (s : List Char) : Option (List Char) :=
  (findSub ("```bash\n".data) s).bind fun i =>
    (findSub ("\n```".data) (s.drop (i + 8))).map fun j => (s.drop (i + 8)).take j

/-- _extract_command: a complete fenced bash block first (inner text,
stripped); if the text merely contains the fence tag but the block regex
fails, or there is no tag, fall through to the check whether the whole
response starts with the shell-prompt marker, in which case the rest of
the response (stripped) is returned. -/
def extract_command (resp : String) : Option String :=
  match (if containsSub resp.data ("```bash".data) then bashBlock resp.data else none) with
  | some inner => some ⟨pyStrip inner⟩
  | none =>
    if ("$ ".data).isPrefixOf resp.data then some ⟨pyStrip (resp.data.drop 2)⟩
    else none

/-- Split a character list at newline characters (for the claim-side
extraction model below). -/
def splitLines (s : List Char) : List (List Char) := s.splitOn '\n'

/-- Modelled from the claim wording of C7, for refinement comparison only:
after the fenced-block step, scan for ANY single line prefixed with the
shell-prompt marker and take the remainder of that line. -/
def extract_command_claim (resp : String) : Option String :=
  match (if containsSub resp.data ("```bash".data) then bashBlock resp.data else none) with
  | some inner => some ⟨pyStrip inner⟩
  | none =>
    match (splitLines resp.data).find? (fun ln => ("$ ".data).isPrefixOf ln) with
    | some ln => some ⟨pyStrip (ln.drop 2)⟩
    | none => none

/-! ## Conversation store (_add_to_history) -/

structure Turn where
  role : String
  content : String
deriving DecidableEq

/-- Python slice l[-m:]: for m = 0 this is the whole list (the slice
-0: is 0:), otherwise the last m elements. -/
def pyLastSlice {α : Type} (m : Nat) (l : List α) : List α :=
  if m = 0 then l else l.drop (l.length - m)

/-- _add_to_history: append the turn, then if the length exceeds
memory_size + 1 replace the store by [context[0]] + context[-memory_size:]. -/
def add_to_history (memory_size : Nat) (ctx : List Turn)
    (role content : String) : List Turn :=
  let ctx2 := ctx ++ [⟨role, content⟩]
  if ctx2.length > memory_size + 1 then
    match ctx2 with
    | [] => []
    | t0 :: _ => t0 :: pyLastSlice memory_size ctx2
  else ctx2

/-- Iterated _add_to_history over a list of (role, content) pairs. -/
def appendAll (memory_size : Nat) (ctx : List Turn)
    (ts : List (String × String)) : List Turn :=
  ts.foldl (fun c rc => add_to_history memory_size c rc.1 rc.2) ctx

/-! ## Session state and collaborator environment -/

structure AssistantState where
  context : List Turn
  safety_checks : Bool
  require_confirmation : Bool
  max_output : Nat
  memory_size : Nat
  user_name : String
  platform : String
  is_wsl : Bool
  is_root : Bool
  session_start : String
deriving DecidableEq

/-- Outcome of the subprocess.run collaborator. -/
inductive RunOutcome where
  | timeout : RunOutcome
  | raised : String → RunOutcome
  | completed : String → String → Int → RunOutcome
deriving DecidableEq

/-- One-turn environment: what each external collaborator would answer if
invoked.  modelOutcome = none models any exception out of the API call
(timeout, network fault, malformed JSON). -/
structure Env where
  modelOutcome : Option String
  runOutcome : RunOutcome
  askAnswer : String
deriving DecidableEq

/-! ## Model call (_generate_response) -/

def fallbackText : String :=
  "I encountered an error processing your request. Please try again."

/-- _generate_response: the stripped content on success, the fixed
apologetic text on any exception. -/
def generate_response (env : Env) : String :=
  match env.modelOutcome with
  | some content => pyStripS content
  | none => fallbackText

/-! ## Executor (_execute_command) -/

/-- Which collaborators _execute_command invoked. -/
structure ExecTrace where
  spawned : Bool
  asked : Bool
deriving DecidableEq

/-- The try-block of _execute_command: spawn, merge stdout and stderr,
truncate; timeouts and other exceptions become result values. -/
def runProcess (st : AssistantState) (env : Env) (asked : Bool) :
    (String × Int) × ExecTrace :=
  match env.runOutcome with
  | .timeout => (("Command timed out", 1), ⟨true, asked⟩)
  | .raised msg => (("Execution error: " ++ msg, 1), ⟨true, asked⟩)
  | .completed out err code =>
    ((truncateOutput st.max_output (out ++ err), code), ⟨true, asked⟩)

/-- _execute_command: empty command is rejected up front; then the gate
(safety_checks short-circuits the is_safe call); then the subprocess. -/
def execute_command (st : AssistantState) (env : Env) (command : String) :
    (String × Int) × ExecTrace :=
  if command = "" then (("No command to execute", 1), ⟨false, false⟩)
  else if st.safety_checks then
    let s := is_safe st.require_confirmation env.askAnswer command
    if s.1 then runProcess st env s.2
    else (("Command blocked by safety system", 1), ⟨false, s.2⟩)
  else runProcess st env false

/-! ## Canned responses of handle_query -/

def pyBool (b : Bool) : String := if b then "True" else "False"

/-- get_system_info rendered as in the "system information" branch. -/
def system_info_text (st : AssistantState) : String :=
  "System Information:\n" ++
  "system: " ++ st.platform ++ "\n" ++
  "user: " ++ st.user_name ++ "\n" ++
  "wsl: " ++ pyBool st.is_wsl ++ "\n" ++
  "root: " ++ pyBool st.is_root ++ "\n" ++
  "session_start: " ++ st.session_start ++ "\n" ++
  "context_size: " ++ toString (st.context.length - 1)

def historyLine (i : Nat) (t : Turn) : String :=
  toString (i + 1) ++ ". " ++ t.role ++ ": " ++
    (⟨t.content.data.take 60⟩ : String) ++
    (if t.content.data.length > 60 then "..." else "")

/-- The "conversation history" branch rendering over context[1:]. -/
def history_text (ctx : List Turn) : String :=
  "Recent Conversation History:\n" ++
    String.intercalate "\n" ((ctx.drop 1).enum.map (fun p => historyLine p.1 p.2))

/-- Case-insensitive intent check: phrase in user_input.lower(). -/
def containsPhrase (u phrase : String) : Bool :=
  containsSub (pyLower u.data) phrase.data

/-! ## Orchestrator (handle_query) -/

structure HQResult where
  response : String
  state : AssistantState
  modelCalled : Bool
  spawned : Bool
  asked : Bool
deriving DecidableEq

/-- The model-query tail of handle_query, taken after the user turn has
been appended (st1) and no intent phrase matched: call the model, append
the assistant turn, extract a command, and if one is present gate and
run it, fold the result back as a system turn, and append the summary
line to the response. -/
def model_step (st1 : AssistantState) (env : Env) : HQResult :=
  let resp := generate_response env
  let st2 : AssistantState :=
    { st1 with context := add_to_history st1.memory_size st1.context "assistant" resp }
  match extract_command resp with
  | some cmd =>
    if cmd = "" then
      { response := resp, state := st2,
        modelCalled := true, spawned := false, asked := false }
    else
      let er := execute_command st2 env cmd
      let output := er.1.1
      let returncode := er.1.2
      let follow_up := "Command executed:\n```bash\n" ++ cmd ++
        "\n```\nExit code: " ++ toString returncode ++ "\nOutput:\n" ++
        (⟨output.data.take 500⟩ : String) ++
        (if output.data.length > 500 then "..." else "")
      let st3 : AssistantState :=
        { st2 with context := add_to_history st2.memory_size st2.context "system" follow_up }
      let finalResp :=
        if returncode = 0 then
          resp ++ "\n\nCommand executed successfully:\n```bash\n" ++ cmd ++ "\n```"
        else
          resp ++ "\n\nCommand failed (exit " ++ toString returncode ++
            "):\n```bash\n" ++ cmd ++ "\n```"
      { response := finalResp, state := st3,
        modelCalled := true, spawned := er.2.spawned, asked := er.2.asked }
  | none =>
    { response := resp, state := st2,
      modelCalled := true, spawned := false, asked := false }

def handle_query (st : AssistantState) (env : Env) (user_input : String) :
    HQResult :=
  let st1 : AssistantState :=
    { st with context := add_to_history st.memory_size st.context "user" user_input }
  if containsPhrase user_input "toggle safety" then
    let newSafety := !st1.safety_checks
    { response := "Safety checks have been " ++
        (if newSafety then "ENABLED" else "DISABLED") ++ ".",
      state := { st1 with safety_checks := newSafety },
      modelCalled := false, spawned := false, asked := false }
  else if containsPhrase user_input "system information" then
    { response := system_info_text st1, state := st1,
      modelCalled := false, spawned := false, asked := false }
  else if containsPhrase user_input "conversation history" then
    { response := history_text st1.context, state := st1,
      modelCalled := false, spawned := false, asked := false }
  else if containsPhrase user_input "exit" || containsPhrase user_input "quit" then
    { response := "EXIT_REQUEST", state := st1,
      modelCalled := false, spawned := false, asked := false }
  else
    model_step st1 env

/-! ## Configuration loading (_load_config) -/

inductive JValue where
  | jnull : JValue
  | jbool : Bool → JValue
  | jnum : Int → JValue
  | jstr : String → JValue
  | jobj : List (String × JValue) → JValue

/-- First-occurrence lookup in an object (Python dicts have unique keys). -/
def lookupKey (d : List (String × JValue)) (k : String) : Option JValue :=
  match d with
  | [] => none
  | (k2, v) :: rest => if k2 = k then some v else lookupKey rest k

/-- dict[k] = v on an assoc list with Python dict semantics: update in
place if present, append otherwise. -/
def pyDictSet (d : List (String × JValue)) (k : String) (v : JValue) :
    List (String × JValue) :=
  match d with
  | [] => [(k, v)]
  | (k2, v2) :: rest =>
    if k2 = k then (k2, v) :: rest else (k2, v2) :: pyDictSet rest k v

/-- The shallow dict union of two objects (the Python double-star merge):
every top-level key of u overwrites the whole value in d. -/
def pyDictMerge (d u : List (String × JValue)) : List (String × JValue) :=
  u.foldl (fun acc kv => pyDictSet acc kv.1 kv.2) d

def default_config : List (String × JValue) :=
  [ ("api", .jobj [("ollama_endpoint", .jstr "http://localhost:11434/api/chat"),
                   ("timeout", .jnum 30)]),
    ("personality", .jobj [("name", .jstr "Kali-Assist"),
                           ("tone", .jstr "professional"),
                           ("verbosity", .jstr "detailed")]),
    ("security", .jobj [("require_confirmation", .jbool true),
                        ("max_output", .jnum 5000),
                        ("timeout", .jnum 45)]),
    ("context", .jobj [("memory_size", .jnum 10)]) ]

/-- _load_config: none models a missing, unreadable or unparseable file
(every exception path), which yields the defaults; a parsed file is
merged shallowly over the defaults. -/
def load_config (userFile : Option (List (String × JValue))) :
    List (String × JValue) :=
  match userFile with
  | none => default_config
  | some u => pyDictMerge default_config u

/-- config[sec][key] as the core reads it; none models the KeyError /
TypeError that the lookup would raise. -/
def configGet2 (cfg : List (String × JValue)) (sec key : String) :
    Option JValue :=
  match lookupKey cfg sec with
  | some (.jobj fields) => lookupKey fields key
  | _ => none

example : isDangerous "rm -rf /" = true := by decide
example : isDangerous "ls -la" = false := by decide
example : isDangerous "sudo RM  -RF /tmp" = true := by decide
example : isDangerous "dd if=/dev/zero" = true := by decide
example : isDangerous "echo hi > /dev/sda" = true := by decide
example : isDangerous "" = false := by decide
example : is_safe true " Y " "ls" = (true, true) := by decide
example : is_safe true "yes" "ls" = (false, true) := by decide
example : is_safe false "anything" "ls" = (true, false) := by decide
example : is_safe true "y" "rm -rf /" = (false, false) := by decide
example : truncateOutput 3 "abcdef" = "abc\n\n[OUTPUT TRUNCATED]" := by decide
example : truncateOutput 6 "abcdef" = "abcdef" := by decide
example : extract_command "```bash\necho hi\n```" = some "echo hi" := by decide
example : extract_command "run\n```bash\n ls \n```\nmore" = some "ls" := by decide
example : extract_command "$ ls -la" = some "ls -la" := by decide
example : extract_command "echo hi\n$ ls" = none := by decide
example : extract_command_claim "echo hi\n$ ls" = some "ls" := by decide
example : extract_command fallbackText = none := by decide
example : extract_command "```bash no newline" = none := by decide
example :
    appendAll 2 [⟨"system", "s"⟩]
      [("user", "a"), ("assistant", "b"), ("user", "c"), ("assistant", "d"), ("user", "e")] =
      [⟨"system", "s"⟩, ⟨"assistant", "d"⟩, ⟨"user", "e"⟩] := by decide
example : (appendAll 0 [⟨"system", "s"⟩] [("user", "a")]).length = 3 := by decide
example :
    configGet2 (load_config (some [("security", .jobj [("timeout", .jnum 60)])]))
      "security" "require_confirmation" = none := rfl
example :
    configGet2 (load_config none) "security" "require_confirmation" =
      some (.jbool true) := rfl

/-! ## Shared helper lemmas -/

theorem add_to_history_nil_eq (m : Nat) (r c : String) :
    add_to_history m ([] : List Turn) r c =
      if 1 > m + 1 then (⟨r, c⟩ : Turn) :: pyLastSlice m [⟨r, c⟩] else [⟨r, c⟩] := rfl

theorem add_to_history_cons_eq (m : Nat) (a : Turn) (l : List Turn) (r c : String) :
    add_to_history m (a :: l) r c =
      if (a :: (l ++ [(⟨r, c⟩ : Turn)])).length > m + 1 then
        a :: pyLastSlice m (a :: (l ++ [(⟨r, c⟩ : Turn)]))
      else a :: (l ++ [(⟨r, c⟩ : Turn)]) := rfl

theorem lastSlice_concat1 (m : Nat) (x : List Turn) (t : Turn) :
    ∃ y, pyLastSlice m (x ++ [t]) = y ++ [t] := by
  unfold pyLastSlice
  by_cases hm : m = 0
  · rw [if_pos hm]
    exact ⟨x, rfl⟩
  · rw [if_neg hm]
    have hk : (x ++ [t]).length - m ≤ x.length := by simp; omega
    exact ⟨x.drop ((x ++ [t]).length - m), by rw [List.drop_append_of_le_length hk]⟩

theorem lastSlice_concat2 (m : Nat) (hm : 2 ≤ m) (x : List Turn) (t1 t2 : Turn) :
    ∃ y, pyLastSlice m (x ++ [t1, t2]) = y ++ [t1, t2] := by
  unfold pyLastSlice
  rw [if_neg (by omega)]
  have hk : (x ++ [t1, t2]).length - m ≤ x.length := by simp; omega
  exact ⟨x.drop ((x ++ [t1, t2]).length - m), by rw [List.drop_append_of_le_length hk]⟩

/-- Every _add_to_history result ends with the turn just appended. -/
theorem add_to_history_concat (m : Nat) (ctx : List Turn) (r c : String) :
    ∃ pre, add_to_history m ctx r c = pre ++ [⟨r, c⟩] := by
  cases ctx with
  | nil =>
    rw [add_to_history_nil_eq, if_neg (by omega)]
    exact ⟨[], rfl⟩
  | cons a l =>
    rw [add_to_history_cons_eq]
    by_cases h : (a :: (l ++ [(⟨r, c⟩ : Turn)])).length > m + 1
    · rw [if_pos h]
      have h2 : a :: (l ++ [(⟨r, c⟩ : Turn)]) = (a :: l) ++ [(⟨r, c⟩ : Turn)] := rfl
      rw [h2]
      obtain ⟨y, hy⟩ := lastSlice_concat1 m (a :: l) ⟨r, c⟩
      exact ⟨a :: y, by rw [hy]; rfl⟩
    · rw [if_neg h]
      exact ⟨a :: l, rfl⟩

/-- With memory_size at least 2, appending preserves the previously last
turn just before the new one. -/
theorem add_to_history_preserves_last (m : Nat) (hm : 2 ≤ m) (pre : List Turn)
    (t1 : Turn) (r c : String) :
    ∃ pre2, add_to_history m (pre ++ [t1]) r c = pre2 ++ [t1, ⟨r, c⟩] := by
  cases hx : pre ++ [t1] with
  | nil => exact absurd hx (by simp)
  | cons a l =>
    rw [add_to_history_cons_eq]
    have h2 : a :: (l ++ [(⟨r, c⟩ : Turn)]) = (pre ++ [t1]) ++ [(⟨r, c⟩ : Turn)] := by
      rw [hx]; rfl
    by_cases h : (a :: (l ++ [(⟨r, c⟩ : Turn)])).length > m + 1
    · rw [if_pos h]
      rw [h2, List.append_assoc]
      obtain ⟨y, hy⟩ := lastSlice_concat2 m hm pre t1 ⟨r, c⟩
      simp only [List.singleton_append] at hy ⊢
      exact ⟨a :: y, by rw [hy]; rfl⟩
    · rw [if_neg h]
      rw [h2, List.append_assoc]
      exact ⟨pre, by rfl⟩

/-- A representative session state for concrete scenarios (the default
configuration: confirmation on, max_output 5000, memory_size 10). -/
def sampleState : AssistantState :=
  { context := [⟨"system", "sysprompt"⟩], safety_checks := true,
    require_confirmation := true, max_output := 5000, memory_size := 10,
    user_name := "kali", platform := "Linux", is_wsl := false,
    is_root := false, session_start := "2026-01-01 00:00:00" }

/-! ## Claim theorems -/

/-- Claim C1: _is_safe returns false with no interactive prompt whenever
the command matches a danger pattern, regardless of require_confirmation
or the answer; a non-dangerous command with require_confirmation off is
allowed with no prompt; with require_confirmation on, the prompt is shown
and the command is allowed exactly when the answer, stripped and
lower-cased, is the literal "y". -/
theorem C1_is_safe_gate (req : Bool) (ans cmd : String) :
    (isDangerous cmd = true → is_safe req ans cmd = (false, false))
    ∧ (isDangerous cmd = false → req = false → is_safe req ans cmd = (true, false))
    ∧ (isDangerous cmd = false → req = true →
        (is_safe req ans cmd).2 = true ∧
          ((is_safe req ans cmd).1 = true ↔ pyLower (pyStrip ans.data) = "y".data)) := by
  refine ⟨?_, ?_, ?_⟩
  · intro h
    simp [is_safe, h]
  · intro h hreq
    simp [is_safe, h, hreq]
  · intro h hreq
    constructor
    · simp [is_safe, h, hreq]
    · simp [is_safe, h, hreq]

theorem C1_is_safe_gate_witness :
    (isDangerous "rm -rf /" = true ∧ is_safe true "n" "rm -rf /" = (false, false))
    ∧ (isDangerous "ls" = false ∧ is_safe false "n" "ls" = (true, false))
    ∧ (isDangerous "ls" = false ∧ (is_safe true " Y " "ls").2 = true ∧
        ((is_safe true " Y " "ls").1 = true ↔ pyLower (pyStrip " Y ".data) = "y".data)) :=
  ⟨⟨by decide, (C1_is_safe_gate true "n" "rm -rf /").1 (by decide)⟩,
   ⟨by decide, (C1_is_safe_gate false "n" "ls").2.1 (by decide) rfl⟩,
   by decide, ((C1_is_safe_gate true " Y " "ls").2.2 (by decide) rfl).1,
     ((C1_is_safe_gate true " Y " "ls").2.2 (by decide) rfl).2⟩

/-- Claim C5: the executor truncates the merged output exactly when its
length strictly exceeds max_output, in which case the result is the first
max_output characters followed by the fixed marker; output at or below
the boundary is returned unchanged, and the result never exceeds
max_output plus the marker length. -/
theorem C5_truncation (max_output : Nat) (output : String) :
    (output.data.length > max_output →
      truncateOutput max_output output = ⟨output.data.take max_output ++ truncMarker.data⟩)
    ∧ (output.data.length ≤ max_output → truncateOutput max_output output = output)
    ∧ (truncateOutput max_output output).data.length ≤
        max_output + truncMarker.data.length := by
  refine ⟨?_, ?_, ?_⟩
  · intro h
    simp only [truncateOutput, if_pos h]
  · intro h
    simp only [truncateOutput]
    rw [if_neg (by omega)]
  · by_cases h : output.data.length > max_output
    · simp only [truncateOutput, if_pos h]
      simp only [List.length_append, List.length_take]
      omega
    · simp only [truncateOutput, if_neg h]
      omega

theorem C5_truncation_witness :
    (("abcdef" : String).data.length > 3 ∧
      truncateOutput 3 "abcdef" = ⟨("abcdef" : String).data.take 3 ++ truncMarker.data⟩)
    ∧ (("abc" : String).data.length ≤ 3 ∧ truncateOutput 3 "abc" = "abc") :=
  ⟨⟨by decide, (C5_truncation 3 "abcdef").1 (by decide)⟩,
   ⟨by decide, (C5_truncation 3 "abc").2.1 (by decide)⟩⟩

/-- Claim C6: _execute_command is total and maps every failure mode to a
result value: an empty command yields exit code 1 with no spawn; once the
gate passes, a timeout yields the fixed timeout message with exit code 1,
any other spawn failure yields the failure description with exit code 1,
and a normal completion yields the (truncated) merged output with the
real process exit code. -/
theorem C6_executor_total (st : AssistantState) (env : Env) (cmd : String) :
    (cmd = "" →
      execute_command st env cmd = (("No command to execute", 1), ⟨false, false⟩))
    ∧ (cmd ≠ "" →
      (st.safety_checks = false ∨
        (is_safe st.require_confirmation env.askAnswer cmd).1 = true) →
      ((env.runOutcome = .timeout →
          (execute_command st env cmd).1 = ("Command timed out", 1) ∧
          (execute_command st env cmd).2.spawned = true)
       ∧ (∀ msg, env.runOutcome = .raised msg →
          (execute_command st env cmd).1 = ("Execution error: " ++ msg, 1) ∧
          (execute_command st env cmd).2.spawned = true)
       ∧ (∀ out err code, env.runOutcome = .completed out err code →
          (execute_command st env cmd).1 =
            (truncateOutput st.max_output (out ++ err), code) ∧
          (execute_command st env cmd).2.spawned = true))) := by
  constructor
  · intro h
    simp [execute_command, h]
  · intro h1 h2
    have hrun : ∃ a, execute_command st env cmd = runProcess st env a := by
      rcases h2 with h2 | h2
      · exact ⟨false, by simp [execute_command, h1, h2]⟩
      · by_cases hs : st.safety_checks
        · exact ⟨(is_safe st.require_confirmation env.askAnswer cmd).2,
            by simp [execute_command, h1, hs, h2]⟩
        · exact ⟨false, by simp [execute_command, h1, hs]⟩
    obtain ⟨a, ha⟩ := hrun
    refine ⟨?_, ?_, ?_⟩
    · intro ho
      rw [ha]
      simp [runProcess, ho]
    · intro msg ho
      rw [ha]
      simp [runProcess, ho]
    · intro out err code ho
      rw [ha]
      simp [runProcess, ho]

theorem C6_executor_total_witness :
    (execute_command sampleState ⟨some "x", .timeout, "y"⟩ "" =
      (("No command to execute", 1), ⟨false, false⟩))
    ∧ ((execute_command sampleState ⟨some "x", .timeout, "y"⟩ "ls").1 =
        ("Command timed out", 1) ∧
       (execute_command sampleState ⟨some "x", .timeout, "y"⟩ "ls").2.spawned = true)
    ∧ ((execute_command sampleState ⟨some "x", .raised "boom", "y"⟩ "ls").1 =
        ("Execution error: " ++ "boom", 1) ∧
       (execute_command sampleState ⟨some "x", .raised "boom", "y"⟩ "ls").2.spawned = true)
    ∧ ((execute_command sampleState ⟨some "x", .completed "hi\n" "" 0, "y"⟩ "ls").1 =
        (truncateOutput sampleState.max_output ("hi\n" ++ ""), 0) ∧
       (execute_command sampleState ⟨some "x", .completed "hi\n" "" 0, "y"⟩ "ls").2.spawned = true) :=
  ⟨(C6_executor_total sampleState ⟨some "x", .timeout, "y"⟩ "").1 rfl,
   ((C6_executor_total sampleState ⟨some "x", .timeout, "y"⟩ "ls").2 (by decide)
      (Or.inr (by decide))).1 rfl,
   ((C6_executor_total sampleState ⟨some "x", .raised "boom", "y"⟩ "ls").2 (by decide)
      (Or.inr (by decide))).2.1 "boom" rfl,
   ((C6_executor_total sampleState ⟨some "x", .completed "hi\n" "" 0, "y"⟩ "ls").2 (by decide)
      (Or.inr (by decide))).2.2 "hi\n" "" 0 rfl⟩

def mkTurn (p : String × String) : Turn := ⟨p.1, p.2⟩

theorem appendAll_cons (m : Nat) (ctx : List Turn) (p : String × String)
    (ts : List (String × String)) :
    appendAll m ctx (p :: ts) = appendAll m (add_to_history m ctx p.1 p.2) ts := rfl

/-- Closed form of the conversation store after a sequence of appends:
starting from a pinned head and a tail of at most memory_size turns, the
result is the head followed by the last memory_size of (old tail plus the
appended turns), in order. -/
theorem appendAll_go (m : Nat) (hm : 1 ≤ m) (sys : Turn) (ts : List (String × String)) :
    ∀ tail : List Turn, tail.length ≤ m →
      appendAll m (sys :: tail) ts =
        sys :: (tail ++ ts.map mkTurn).drop (tail.length + ts.length - m) := by
  induction ts with
  | nil =>
    intro tail htl
    have h0 : appendAll m (sys :: tail) [] = sys :: tail := rfl
    rw [h0]
    simp only [List.map_nil, List.append_nil, List.length_nil, Nat.add_zero]
    rw [Nat.sub_eq_zero_of_le htl, List.drop_zero]
  | cons p rest ih =>
    intro tail htl
    rw [appendAll_cons]
    by_cases hlt : tail.length < m
    · rw [add_to_history_cons_eq, if_neg (by simp; omega)]
      have h2 : sys :: (tail ++ [(⟨p.1, p.2⟩ : Turn)]) = sys :: (tail ++ [mkTurn p]) := rfl
      rw [h2, ih (tail ++ [mkTurn p]) (by simp; omega)]
      have h3 : (tail ++ [mkTurn p]) ++ rest.map mkTurn = tail ++ (p :: rest).map mkTurn := by
        simp
      have h4 : (tail ++ [mkTurn p]).length + rest.length - m =
          tail.length + (p :: rest).length - m := by simp; omega
      rw [h3, h4]
    · have heq : tail.length = m := by omega
      rcases tail with _ | ⟨t0, ttl⟩
      · exact absurd heq (by simp; omega)
      · rw [add_to_history_cons_eq, if_pos (by simp at heq ⊢; omega)]
        have hslice : pyLastSlice m (sys :: ((t0 :: ttl) ++ [(⟨p.1, p.2⟩ : Turn)])) =
            ttl ++ [mkTurn p] := by
          unfold pyLastSlice
          rw [if_neg (by omega)]
          have hlen : (sys :: ((t0 :: ttl) ++ [(⟨p.1, p.2⟩ : Turn)])).length - m = 2 := by
            simp at heq ⊢
            omega
          rw [hlen]
          rfl
        rw [hslice, ih (ttl ++ [mkTurn p]) (by simp at heq ⊢; omega)]
        have h3 : (ttl ++ [mkTurn p]) ++ rest.map mkTurn = ttl ++ (p :: rest).map mkTurn := by
          simp
        have h4 : (ttl ++ [mkTurn p]).length + rest.length - m = rest.length := by
          simp at heq ⊢
          omega
        have h5 : (t0 :: ttl).length + (p :: rest).length - m = rest.length + 1 := by
          simp at heq ⊢
          omega
        rw [h3, h4, h5]
        congr 1

/-- Claim C4, amended with memory_size at least 1: starting from one
system turn, after any sequence of appends the store is exactly the
system turn followed by the last memory_size appended turns in order;
hence the length never exceeds memory_size + 1 and index 0 always holds
the system turn. -/
theorem C4_history_invariant (m : Nat) (hm : 1 ≤ m) (sys : Turn)
    (ts : List (String × String)) :
    appendAll m [sys] ts = sys :: (ts.map mkTurn).drop (ts.length - m)
    ∧ (appendAll m [sys] ts).length ≤ m + 1
    ∧ (appendAll m [sys] ts).head? = some sys := by
  have h := appendAll_go m hm sys ts [] (by simp)
  simp only [List.length_nil, List.nil_append, Nat.zero_add] at h
  refine ⟨h, ?_, ?_⟩
  · rw [h]
    simp only [List.length_cons, List.length_drop, List.length_map]
    omega
  · rw [h]
    rfl

/-- Claim C4 as stated fails at memory_size = 0: the slice -0: is the
whole list, so one append grows the store to 3 turns, exceeding
memory_size + 1 = 1 (and duplicating the system turn). -/
theorem C4_counterexample :
    (appendAll 0 [⟨"system", "s"⟩] [("user", "hi")]).length = 3 ∧
    ¬ (appendAll 0 [⟨"system", "s"⟩] [("user", "hi")]).length ≤ 0 + 1 := by decide

theorem C4_history_invariant_witness :
    appendAll 2 [⟨"system", "s"⟩] [("user", "a"), ("assistant", "b"), ("user", "c")] =
        (⟨"system", "s"⟩ : Turn) ::
          ([("user", "a"), ("assistant", "b"), ("user", "c")].map mkTurn).drop
            ([("user", "a"), ("assistant", "b"), ("user", "c")].length - 2)
    ∧ (appendAll 2 [⟨"system", "s"⟩]
        [("user", "a"), ("assistant", "b"), ("user", "c")]).length ≤ 2 + 1
    ∧ (appendAll 2 [⟨"system", "s"⟩]
        [("user", "a"), ("assistant", "b"), ("user", "c")]).head? = some ⟨"system", "s"⟩ :=
  C4_history_invariant 2 (by decide) ⟨"system", "s"⟩
    [("user", "a"), ("assistant", "b"), ("user", "c")]

/-- If a longer needle occurs in the haystack, so does any prefix of it. -/
theorem findSub_mono (n1 n2 : List Char) (hp : n1 <+: n2) :
    ∀ hay : List Char, (findSub n2 hay).isSome → (findSub n1 hay).isSome := by
  intro hay
  induction hay with
  | nil =>
    intro h
    have h2 : n2.isPrefixOf ([] : List Char) = true := by
      by_contra hc
      simp [findSub, Bool.of_not_eq_true hc] at h
    have hn2 : n2 = [] := by
      simpa using (List.isPrefixOf_iff_prefix.mp h2)
    have hn1 : n1 = [] := by
      subst hn2
      simpa using hp
    subst hn1
    simp [findSub]
  | cons c rest ih =>
    intro h
    by_cases h1 : n1.isPrefixOf (c :: rest)
    · simp [findSub, h1]
    · by_cases h2 : n2.isPrefixOf (c :: rest)
      · exfalso
        apply h1
        exact List.isPrefixOf_iff_prefix.mpr
          (hp.trans (List.isPrefixOf_iff_prefix.mp h2))
      · simp [findSub, Bool.of_not_eq_true h2] at h
        have := ih h
        simp [findSub, h1, this]

/-- Claim C7 as stated fails: class one, a marker on a later line is
ignored by the code though the claim extracts from it; class two, when
the first line carries the marker the code returns the remainder of the
entire text, not of that line. -/
theorem C7_counterexample :
    (extract_command "echo hi\n$ ls" = none ∧
      extract_command_claim "echo hi\n$ ls" = some "ls")
    ∧ (extract_command "$ ls\nthen reboot" = some "ls\nthen reboot" ∧
      extract_command_claim "$ ls\nthen reboot" = some "ls") := by decide

/-- Claim C7, amended: extraction takes the first complete fenced bash
block (inner text trimmed); otherwise, only when the whole response
starts with the shell-prompt marker, the remainder of the entire
response (trimmed); otherwise nothing is extracted and the model text is
returned verbatim. -/
theorem C7_extraction (r : String) :
    (∀ i j : Nat,
      findSub ("```bash\n".data) r.data = some i →
      findSub ("\n```".data) (r.data.drop (i + 8)) = some j →
      extract_command r = some ⟨pyStrip ((r.data.drop (i + 8)).take j)⟩)
    ∧ (bashBlock r.data = none → ("$ ".data).isPrefixOf r.data = true →
        extract_command r = some ⟨pyStrip (r.data.drop 2)⟩)
    ∧ (bashBlock r.data = none → ("$ ".data).isPrefixOf r.data = false →
        extract_command r = none) := by
  refine ⟨?_, ?_, ?_⟩
  · intro i j hi hj
    have hcontains : containsSub r.data ("```bash".data) = true := by
      have hpre : ("```bash".data) <+: ("```bash\n".data) := by decide
      have hs : (findSub ("```bash\n".data) r.data).isSome := by rw [hi]; rfl
      unfold containsSub
      exact findSub_mono _ _ hpre r.data hs
    have hb : bashBlock r.data = some ((r.data.drop (i + 8)).take j) := by
      unfold bashBlock
      rw [hi, Option.some_bind, hj, Option.map_some']
    simp [extract_command, hcontains, hb]
  · intro hb hpre
    unfold extract_command
    by_cases hc : containsSub r.data ("```bash".data)
    · simp [hc, hb, hpre]
    · simp [hc, hb, hpre]
  · intro hb hpre
    unfold extract_command
    by_cases hc : containsSub r.data ("```bash".data)
    · simp [hc, hb, hpre]
    · simp [hc, hb, hpre]

theorem C7_extraction_witness :
    (findSub ("```bash\n".data) ("```bash\nls -la\n```" : String).data = some 0 ∧
     findSub ("\n```".data) (("```bash\nls -la\n```" : String).data.drop (0 + 8)) = some 6 ∧
     extract_command "```bash\nls -la\n```" =
       some ⟨pyStrip ((("```bash\nls -la\n```" : String).data.drop (0 + 8)).take 6)⟩)
    ∧ (bashBlock ("$ ls" : String).data = none ∧
       ("$ ".data).isPrefixOf ("$ ls" : String).data = true ∧
       extract_command "$ ls" = some ⟨pyStrip (("$ ls" : String).data.drop 2)⟩)
    ∧ (bashBlock ("hello" : String).data = none ∧
       ("$ ".data).isPrefixOf ("hello" : String).data = false ∧
       extract_command "hello" = none) :=
  ⟨⟨by decide, by decide,
    (C7_extraction "```bash\nls -la\n```").1 0 6 (by decide) (by decide)⟩,
   ⟨by decide, by decide, (C7_extraction "$ ls").2.1 (by decide) (by decide)⟩,
   ⟨by decide, by decide, (C7_extraction "hello").2.2 (by decide) (by decide)⟩⟩

theorem lookup_pyDictSet_self (d : List (String × JValue)) (k : String) (v : JValue) :
    lookupKey (pyDictSet d k v) k = some v := by
  induction d with
  | nil => simp [pyDictSet, lookupKey]
  | cons kv rest ih =>
    rcases kv with ⟨k2, v2⟩
    by_cases h : k2 = k
    · simp [pyDictSet, lookupKey, h]
    · simp [pyDictSet, lookupKey, h, ih]

theorem lookup_pyDictSet_ne (d : List (String × JValue)) (k k2 : String) (v : JValue)
    (h : k2 ≠ k) : lookupKey (pyDictSet d k v) k2 = lookupKey d k2 := by
  induction d with
  | nil => simp [pyDictSet, lookupKey, Ne.symm h]
  | cons kv rest ih =>
    rcases kv with ⟨k3, v3⟩
    by_cases h3 : k3 = k
    · subst h3
      simp [pyDictSet, lookupKey, Ne.symm h]
    · by_cases h4 : k3 = k2
      · simp [pyDictSet, lookupKey, h3, h4, h]
      · simp [pyDictSet, lookupKey, h3, h4, h, ih]

theorem lookup_merge_not_mem : ∀ (u d : List (String × JValue)) (k : String),
    k ∉ u.map Prod.fst → lookupKey (pyDictMerge d u) k = lookupKey d k := by
  intro u
  induction u with
  | nil =>
    intro d k _
    rfl
  | cons kv rest ih =>
    intro d k h
    rcases kv with ⟨k2, v2⟩
    simp only [List.map_cons, List.mem_cons] at h
    push_neg at h
    have hstep : pyDictMerge d ((k2, v2) :: rest) = pyDictMerge (pyDictSet d k2 v2) rest := rfl
    rw [hstep, ih (pyDictSet d k2 v2) k h.2, lookup_pyDictSet_ne d k2 k v2 h.1]

theorem lookup_merge_mem : ∀ (u d : List (String × JValue)) (k : String) (v : JValue),
    (u.map Prod.fst).Nodup → lookupKey u k = some v →
    lookupKey (pyDictMerge d u) k = some v := by
  intro u
  induction u with
  | nil =>
    intro d k v _ h
    simp [lookupKey] at h
  | cons kv rest ih =>
    intro d k v hnd h
    rcases kv with ⟨k2, v2⟩
    simp only [List.map_cons, List.nodup_cons] at hnd
    have hstep : pyDictMerge d ((k2, v2) :: rest) = pyDictMerge (pyDictSet d k2 v2) rest := rfl
    by_cases hk : k2 = k
    · subst hk
      have hv : v2 = v := by simpa [lookupKey] using h
      subst hv
      rw [hstep, lookup_merge_not_mem rest (pyDictSet d k2 v2) k2 hnd.1,
        lookup_pyDictSet_self]
    · have h2 : lookupKey rest k = some v := by simpa [lookupKey, hk] using h
      rw [hstep, ih (pyDictSet d k2 v2) k v hnd.2 h2]

/-- Claim C9, amended: loading never fails (a missing, unreadable or
unparseable file yields the full defaults), and the merge is a shallow
top-level union: a section absent from the user file keeps its complete
default, while a section present in the user file replaces the default
section wholesale, so nested keys omitted from a supplied section are
not individually defaulted.  The documented defaults of the five
consumed keys are recorded. -/
theorem C9_config_defaults :
    load_config none = default_config
    ∧ (∀ (u : List (String × JValue)) (k : String), k ∉ u.map Prod.fst →
        lookupKey (load_config (some u)) k = lookupKey default_config k)
    ∧ (∀ (u : List (String × JValue)) (k : String) (v : JValue),
        (u.map Prod.fst).Nodup → lookupKey u k = some v →
        lookupKey (load_config (some u)) k = some v)
    ∧ configGet2 default_config "api" "timeout" = some (.jnum 30)
    ∧ configGet2 default_config "security" "require_confirmation" = some (.jbool true)
    ∧ configGet2 default_config "security" "max_output" = some (.jnum 5000)
    ∧ configGet2 default_config "security" "timeout" = some (.jnum 45)
    ∧ configGet2 default_config "context" "memory_size" = some (.jnum 10) := by
  refine ⟨rfl, ?_, ?_, rfl, rfl, rfl, rfl, rfl⟩
  · intro u k h
    exact lookup_merge_not_mem u default_config k h
  · intro u k v hnd hl
    exact lookup_merge_mem u default_config k v hnd hl

/-- Claim C9 as stated fails: a config file supplying only
security.timeout leaves security.require_confirmation absent after the
shallow merge (a later read raises KeyError), instead of giving it the
documented default true. -/
theorem C9_counterexample :
    configGet2 (load_config (some [("security", JValue.jobj [("timeout", JValue.jnum 60)])]))
        "security" "require_confirmation" = none
    ∧ configGet2 default_config "security" "require_confirmation" = some (JValue.jbool true)
    ∧ configGet2 (load_config (some [("security", JValue.jobj [("timeout", JValue.jnum 60)])]))
        "security" "require_confirmation" ≠
      configGet2 default_config "security" "require_confirmation" :=
  ⟨rfl, rfl, fun h => Option.noConfusion h⟩

theorem C9_config_defaults_witness :
    ("security" ∉ ([("context", JValue.jobj [("memory_size", JValue.jnum 3)])].map Prod.fst) ∧
      lookupKey (load_config (some [("context", JValue.jobj [("memory_size", JValue.jnum 3)])]))
        "security" = lookupKey default_config "security")
    ∧ (([("context", JValue.jobj [("memory_size", JValue.jnum 3)])].map Prod.fst).Nodup ∧
      lookupKey (load_config (some [("context", JValue.jobj [("memory_size", JValue.jnum 3)])]))
        "context" = some (JValue.jobj [("memory_size", JValue.jnum 3)])) :=
  ⟨⟨by decide,
    C9_config_defaults.2.1 [("context", JValue.jobj [("memory_size", JValue.jnum 3)])]
      "security" (by decide)⟩,
   ⟨by decide,
    C9_config_defaults.2.2.1 [("context", JValue.jobj [("memory_size", JValue.jnum 3)])]
      "context" (JValue.jobj [("memory_size", JValue.jnum 3)]) (by decide) rfl⟩⟩

/-- When no intent phrase matches, handle_query is the model-query tail
applied to the state with the user turn appended. -/
theorem handle_query_model (st : AssistantState) (env : Env) (u : String)
    (h1 : containsPhrase u "toggle safety" = false)
    (h2 : containsPhrase u "system information" = false)
    (h3 : containsPhrase u "conversation history" = false)
    (h4 : containsPhrase u "exit" = false)
    (h5 : containsPhrase u "quit" = false) :
    handle_query st env u =
      model_step
        { st with context := add_to_history st.memory_size st.context "user" u } env := by
  simp [handle_query, h1, h2, h3, h4, h5]

/-- Claim C10: a user input containing one of the special intent phrases
(checked case-insensitively in source priority order) yields its canned
response or the EXIT_REQUEST sentinel with the model, the subprocess and
the prompt all uninvoked; the Conversation changes only by the append of
the user turn, and except for the safety flag in the toggle case every
other field of the session state is unchanged. -/
theorem C10_intents (st : AssistantState) (env : Env) (u : String) :
    (containsPhrase u "toggle safety" = true →
      handle_query st env u =
        { response := "Safety checks have been " ++
            (if !st.safety_checks then "ENABLED" else "DISABLED") ++ ".",
          state := { st with
            context := add_to_history st.memory_size st.context "user" u,
            safety_checks := !st.safety_checks },
          modelCalled := false, spawned := false, asked := false })
    ∧ (containsPhrase u "toggle safety" = false →
       containsPhrase u "system information" = true →
      handle_query st env u =
        { response := system_info_text
            { st with context := add_to_history st.memory_size st.context "user" u },
          state := { st with context := add_to_history st.memory_size st.context "user" u },
          modelCalled := false, spawned := false, asked := false })
    ∧ (containsPhrase u "toggle safety" = false →
       containsPhrase u "system information" = false →
       containsPhrase u "conversation history" = true →
      handle_query st env u =
        { response := history_text (add_to_history st.memory_size st.context "user" u),
          state := { st with context := add_to_history st.memory_size st.context "user" u },
          modelCalled := false, spawned := false, asked := false })
    ∧ (containsPhrase u "toggle safety" = false →
       containsPhrase u "system information" = false →
       containsPhrase u "conversation history" = false →
       (containsPhrase u "exit" = true ∨ containsPhrase u "quit" = true) →
      handle_query st env u =
        { response := "EXIT_REQUEST",
          state := { st with context := add_to_history st.memory_size st.context "user" u },
          modelCalled := false, spawned := false, asked := false }) := by
  refine ⟨?_, ?_, ?_, ?_⟩
  · intro h1
    simp [handle_query, h1]
  · intro h1 h2
    simp [handle_query, h1, h2]
  · intro h1 h2 h3
    simp [handle_query, h1, h2, h3]
  · intro h1 h2 h3 h4
    rcases h4 with h4 | h4 <;> simp [handle_query, h1, h2, h3, h4]

theorem C10_intents_witness :
    (containsPhrase "please Toggle Safety now" "toggle safety" = true ∧
      handle_query sampleState ⟨some "m", .completed "" "" 0, ""⟩ "please Toggle Safety now" =
        { response := "Safety checks have been " ++
            (if !sampleState.safety_checks then "ENABLED" else "DISABLED") ++ ".",
          state := { sampleState with
            context := add_to_history sampleState.memory_size sampleState.context
              "user" "please Toggle Safety now",
            safety_checks := !sampleState.safety_checks },
          modelCalled := false, spawned := false, asked := false })
    ∧ (handle_query sampleState ⟨some "m", .completed "" "" 0, ""⟩ "show system information" =
        { response := system_info_text
            { sampleState with
              context := add_to_history sampleState.memory_size sampleState.context
                "user" "show system information" },
          state := { sampleState with
            context := add_to_history sampleState.memory_size sampleState.context
              "user" "show system information" },
          modelCalled := false, spawned := false, asked := false })
    ∧ (handle_query sampleState ⟨some "m", .completed "" "" 0, ""⟩ "conversation history" =
        { response := history_text
            (add_to_history sampleState.memory_size sampleState.context
              "user" "conversation history"),
          state := { sampleState with
            context := add_to_history sampleState.memory_size sampleState.context
              "user" "conversation history" },
          modelCalled := false, spawned := false, asked := false })
    ∧ (handle_query sampleState ⟨some "m", .completed "" "" 0, ""⟩ "quit" =
        { response := "EXIT_REQUEST",
          state := { sampleState with
            context := add_to_history sampleState.memory_size sampleState.context
              "user" "quit" },
          modelCalled := false, spawned := false, asked := false }) :=
  ⟨⟨by decide,
    (C10_intents sampleState ⟨some "m", .completed "" "" 0, ""⟩
      "please Toggle Safety now").1 (by decide)⟩,
   (C10_intents sampleState ⟨some "m", .completed "" "" 0, ""⟩
      "show system information").2.1 (by decide) (by decide),
   (C10_intents sampleState ⟨some "m", .completed "" "" 0, ""⟩
      "conversation history").2.2.1 (by decide) (by decide) (by decide),
   (C10_intents sampleState ⟨some "m", .completed "" "" 0, ""⟩
      "quit").2.2.2 (by decide) (by decide) (by decide) (Or.inr (by decide))⟩

/-- Environment in which the model proposes a dangerous command inside a
fenced bash block. -/
def dangerEnv : Env := ⟨some "```bash\nrm -rf /\n```", .completed "" "" 0, ""⟩

/-- Environment for an intent-only turn; the collaborators are never
consulted. -/
def idleEnv : Env := ⟨some "ok", .completed "" "" 0, ""⟩

/-- Claim C2 as stated fails: the danger veto is applied only while
safety_checks is on, and the user-reachable "toggle safety" intent turns
it off, after which the executor spawns a subprocess even for a command
matching a danger pattern. -/
theorem C2_counterexample :
    isDangerous "rm -rf /" = true
    ∧ (handle_query sampleState idleEnv "toggle safety").state.safety_checks = false
    ∧ (handle_query (handle_query sampleState idleEnv "toggle safety").state
        dangerEnv "clean the disk").spawned = true := by decide

/-- Claim C2, amended: while safety_checks is enabled, a command matching
a danger pattern is never executed — _execute_command returns the
blocked result without spawning, and handle_query never spawns a
subprocess when the extracted command is dangerous. -/
theorem C2_danger_blocked :
    (∀ (st : AssistantState) (env : Env) (cmd : String),
      st.safety_checks = true → isDangerous cmd = true →
      execute_command st env cmd = (("Command blocked by safety system", 1), ⟨false, false⟩))
    ∧ (∀ (st : AssistantState) (env : Env) (u : String),
      st.safety_checks = true →
      (∀ cmd, extract_command (generate_response env) = some cmd → isDangerous cmd = true) →
      (handle_query st env u).spawned = false) := by
  have hblock : ∀ (st : AssistantState) (env : Env) (cmd : String),
      st.safety_checks = true → isDangerous cmd = true →
      execute_command st env cmd =
        (("Command blocked by safety system", 1), ⟨false, false⟩) := by
    intro st env cmd hs hd
    by_cases hc : cmd = ""
    · subst hc
      exact absurd hd (by decide)
    · simp [execute_command, hc, hs, is_safe, hd]
  refine ⟨hblock, ?_⟩
  intro st env u hs hext
  cases h1 : containsPhrase u "toggle safety" with
  | true => simp [handle_query, h1]
  | false =>
  cases h2 : containsPhrase u "system information" with
  | true => simp [handle_query, h1, h2]
  | false =>
  cases h3 : containsPhrase u "conversation history" with
  | true => simp [handle_query, h1, h2, h3]
  | false =>
  cases h4 : containsPhrase u "exit" with
  | true => simp [handle_query, h1, h2, h3, h4]
  | false =>
  cases h5 : containsPhrase u "quit" with
  | true => simp [handle_query, h1, h2, h3, h4, h5]
  | false =>
  rw [handle_query_model st env u h1 h2 h3 h4 h5]
  have hstep : ∀ st1 : AssistantState, st1.safety_checks = true →
      (model_step st1 env).spawned = false := by
    intro st1 hs1
    rcases hex : extract_command (generate_response env) with _ | cmd
    · simp [model_step, hex]
    · by_cases hce : cmd = ""
      · simp [model_step, hex, hce]
      · have hb := hblock { st1 with context := add_to_history st1.memory_size st1.context "assistant" (generate_response env) } env cmd hs1 (hext cmd hex)
        simp [model_step, hex, hce, hb]
  exact hstep _ hs

theorem C2_danger_blocked_witness :
    (sampleState.safety_checks = true ∧ isDangerous "rm -rf /" = true ∧
      execute_command sampleState dangerEnv "rm -rf /" =
        (("Command blocked by safety system", 1), ⟨false, false⟩))
    ∧ (sampleState.safety_checks = true ∧
      (handle_query sampleState dangerEnv "please clean").spawned = false) :=
  ⟨⟨rfl, by decide, C2_danger_blocked.1 sampleState dangerEnv "rm -rf /" rfl (by decide)⟩,
   ⟨rfl, C2_danger_blocked.2 sampleState dangerEnv "please clean" rfl
      (by
        intro cmd hcmd
        have h0 : extract_command (generate_response dangerEnv) = some "rm -rf /" := by
          decide
        rw [h0] at hcmd
        injection hcmd with hh
        subst hh
        decide)⟩⟩

/-- Claim C3 as stated fails on the composed response: for the dangerous
command the user-visible reply contains the exit status marker
"(exit 1)" and does not contain the refusal text (which goes only to the
history note and the log); execution is nevertheless correctly withheld. -/
theorem C3_counterexample :
    containsSub (handle_query sampleState dangerEnv "please clean").response.data
        ("(exit 1)".data) = true
    ∧ containsSub (handle_query sampleState dangerEnv "please clean").response.data
        ("Command blocked by safety system".data) = false
    ∧ (handle_query sampleState dangerEnv "please clean").spawned = false := by decide

/-- Claim C3, amended: when the extracted command is dangerous and safety
checks are on, authorization fails with no prompt, no subprocess is
spawned, the refusal text is recorded in the folded-back system note
(with exit code 1), and the composed response reports the command as
failed with exit status 1 rather than carrying the refusal text. -/
theorem C3_danger_refusal (st : AssistantState) (env : Env) (u cmd : String)
    (h1 : containsPhrase u "toggle safety" = false)
    (h2 : containsPhrase u "system information" = false)
    (h3 : containsPhrase u "conversation history" = false)
    (h4 : containsPhrase u "exit" = false)
    (h5 : containsPhrase u "quit" = false)
    (hx : extract_command (generate_response env) = some cmd)
    (hd : isDangerous cmd = true)
    (hs : st.safety_checks = true) :
    (handle_query st env u).asked = false
    ∧ (handle_query st env u).spawned = false
    ∧ (handle_query st env u).response =
        generate_response env ++ "\n\nCommand failed (exit " ++ toString (1 : Int) ++
          "):\n```bash\n" ++ cmd ++ "\n```"
    ∧ ∃ pre, (handle_query st env u).state.context =
        pre ++ [⟨"system", "Command executed:\n```bash\n" ++ cmd ++ "\n```\nExit code: " ++
          toString (1 : Int) ++ "\nOutput:\n" ++ "Command blocked by safety system"⟩] := by
  rw [handle_query_model st env u h1 h2 h3 h4 h5]
  have hcne : ¬ cmd = "" := by
    intro hc
    subst hc
    exact absurd hd (by decide)
  have h500 : String.mk (("Command blocked by safety system" : String).data.take 500) =
      "Command blocked by safety system" := by decide
  have hlen : ¬ ("Command blocked by safety system" : String).data.length > 500 := by decide
  have hmain : ∀ st1 : AssistantState, st1.safety_checks = true →
      model_step st1 env =
        { response := generate_response env ++ "\n\nCommand failed (exit " ++
            toString (1 : Int) ++ "):\n```bash\n" ++ cmd ++ "\n```",
          state := { st1 with context := add_to_history st1.memory_size
                                           (add_to_history st1.memory_size st1.context
                                             "assistant" (generate_response env))
                                           "system"
                                           ("Command executed:\n```bash\n" ++ cmd ++
                                             "\n```\nExit code: " ++ toString (1 : Int) ++
                                             "\nOutput:\n" ++
                                             "Command blocked by safety system") },
          modelCalled := true, spawned := false, asked := false } := by
    intro st1 hs1
    have hb : execute_command { st1 with context := add_to_history st1.memory_size st1.context "assistant" (generate_response env) } env cmd = (("Command blocked by safety system", 1), ⟨false, false⟩) := by
      simp [execute_command, hcne, hs1, is_safe, hd]
    simp [model_step, hx, hcne, hb, h500, hlen]
  rw [hmain ({ st with context := add_to_history st.memory_size st.context "user" u }) hs]
  refine ⟨rfl, rfl, rfl, ?_⟩
  exact add_to_history_concat st.memory_size
    (add_to_history st.memory_size (add_to_history st.memory_size st.context "user" u)
      "assistant" (generate_response env)) "system" _

theorem C3_danger_refusal_witness :
    (handle_query sampleState dangerEnv "please clean").asked = false
    ∧ (handle_query sampleState dangerEnv "please clean").spawned = false
    ∧ (handle_query sampleState dangerEnv "please clean").response =
        generate_response dangerEnv ++ "\n\nCommand failed (exit " ++ toString (1 : Int) ++
          "):\n```bash\n" ++ "rm -rf /" ++ "\n```"
    ∧ ∃ pre, (handle_query sampleState dangerEnv "please clean").state.context =
        pre ++ [⟨"system", "Command executed:\n```bash\n" ++ "rm -rf /" ++
          "\n```\nExit code: " ++ toString (1 : Int) ++ "\nOutput:\n" ++
          "Command blocked by safety system"⟩] :=
  C3_danger_refusal sampleState dangerEnv "please clean" "rm -rf /" (by decide) (by decide)
    (by decide) (by decide) (by decide) (by decide) (by decide) rfl

/-- Environment in which the model collaborator fails (network fault,
timeout or malformed response). -/
def failEnv : Env := ⟨none, .completed "" "" 0, ""⟩

/-- A session configured with memory_size 1. -/
def smallMemState : AssistantState := { sampleState with memory_size := 1 }

/-- Claim C8 as stated fails at memory_size 1: the fallback text is
produced, but appending it evicts the user turn, so the Conversation no
longer contains the turn appended before the fault. -/
theorem C8_counterexample :
    (handle_query smallMemState failEnv "hello there").response = fallbackText
    ∧ (⟨"user", "hello there"⟩ : Turn) ∉
        (handle_query smallMemState failEnv "hello there").state.context := by decide

/-- Claim C8, amended with memory_size at least 2 (true of the default
10): a model collaborator failure never escapes handle_query; the fixed
apologetic text is returned and appended as the assistant turn, directly
after the user turn that was appended before the fault. -/
theorem C8_model_failure (st : AssistantState) (env : Env) (u : String)
    (h1 : containsPhrase u "toggle safety" = false)
    (h2 : containsPhrase u "system information" = false)
    (h3 : containsPhrase u "conversation history" = false)
    (h4 : containsPhrase u "exit" = false)
    (h5 : containsPhrase u "quit" = false)
    (hfail : env.modelOutcome = none)
    (hm : 2 ≤ st.memory_size) :
    (handle_query st env u).response = fallbackText
    ∧ (handle_query st env u).modelCalled = true
    ∧ ∃ pre, (handle_query st env u).state.context =
        pre ++ [⟨"user", u⟩, ⟨"assistant", fallbackText⟩] := by
  rw [handle_query_model st env u h1 h2 h3 h4 h5]
  have hresp : generate_response env = fallbackText := by
    simp [generate_response, hfail]
  have hex : extract_command fallbackText = none := by decide
  have hms : ∀ st1 : AssistantState, model_step st1 env =
      { response := fallbackText,
        state := { st1 with
          context := add_to_history st1.memory_size st1.context "assistant" fallbackText },
        modelCalled := true, spawned := false, asked := false } := by
    intro st1
    simp [model_step, hresp, hex]
  rw [hms]
  refine ⟨rfl, rfl, ?_⟩
  have hgoal : ∃ pre,
      add_to_history st.memory_size
        (add_to_history st.memory_size st.context "user" u) "assistant" fallbackText =
      pre ++ [(⟨"user", u⟩ : Turn), ⟨"assistant", fallbackText⟩] := by
    obtain ⟨pre1, hp1⟩ := add_to_history_concat st.memory_size st.context "user" u
    rw [hp1]
    exact add_to_history_preserves_last st.memory_size hm pre1 ⟨"user", u⟩
      "assistant" fallbackText
  exact hgoal

theorem C8_model_failure_witness :
    (handle_query sampleState failEnv "hello").response = fallbackText
    ∧ (handle_query sampleState failEnv "hello").modelCalled = true
    ∧ ∃ pre, (handle_query sampleState failEnv "hello").state.context =
        pre ++ [⟨"user", "hello"⟩, ⟨"assistant", fallbackText⟩] :=
  C8_model_failure sampleState failEnv "hello" (by decide) (by decide) (by decide)
    (by decide) (by decide) rfl (by decide)

end KaliAssistant
